import Mathlib

/-!
Verification of the placement-management portal's core workflow layer.

The data model (User / Job / Application over a single document store) and the
route handlers are embedded as pure Lean functions.  Mongo document ids are
modelled as `Nat`, timestamps as `Int`, and JS-falsy optional fields either as
`Option _` (`none` = absent/empty) or, for the student resume, as a `String`
where `""` models an absent resume.  Each mutating handler returns its
response outcome paired with the resulting store; an early-return error leaves
the store unchanged, exactly as the handler returns before any save.
-/

namespace Placement

abbrev Id := Nat

/-- A user document (src/models: User schema).  Fields irrelevant to the
verified claims (phone, branch, profile picture, reset-token fields, ...) are
elided. `resume = ""` models an absent resume (JS falsy). -/
structure User where
  uid : Id
  name : String
  email : String
  password : String
  role : String
  resume : String
  deriving Repr, DecidableEq

/-- A job posting (src/models/Job.js).  Free-text fields not used by any claim
are elided; `deadline` is required by the schema, so it is not optional. -/
structure Job where
  jid : Id
  companyId : Id
  companyName : String
  title : String
  deadline : Int
  status : String
  deriving Repr, DecidableEq

/-- An application document (application schema in src/unnamed/part_002). -/
structure Application where
  aid : Id
  studentId : Id
  jobId : Id
  companyId : Id
  status : String
  appliedDate : Int
  resume : String
  interviewDate : Option Int := none
  interviewMode : Option String := none
  interviewLocation : Option String := none
  interviewLink : Option String := none
  deriving Repr, DecidableEq

/-- The document store: the three collections the workflow layer touches. -/
structure Store where
  users : List User
  jobs : List Job
  apps : List Application
  deriving Repr, DecidableEq

/-- Models `User.findById`. -/
def findUser (σ : Store) (i : Id) : Option User :=
  σ.users.find? (fun u => u.uid == i)

/-- Models `Job.findById`. -/
def findJob (σ : Store) (i : Id) : Option Job :=
  σ.jobs.find? (fun j => j.jid == i)

/-- Models `Application.findById`. -/
def findApp (σ : Store) (i : Id) : Option Application :=
  σ.apps.find? (fun a => a.aid == i)

/-- The uniqueness invariant: no two application records share a
(student, job) pair. -/
def atMostOnePerPair (σ : Store) : Prop :=
  σ.apps.Pairwise (fun a b => ¬(a.studentId = b.studentId ∧ a.jobId = b.jobId))

/-- Mongo `_id`s are unique per collection. -/
def appIdsNodup (σ : Store) : Prop :=
  (σ.apps.map (fun a => a.aid)).Nodup

/-! ## Apply (POST /student/jobs/:jobId/apply, src/routes/index.js) -/

inductive ApplyRes
  | resumeRequired
  | jobUnavailable
  | deadlinePassed
  | duplicateApplication
  | applied
  deriving Repr, DecidableEq

/-- The apply handler of src/routes/index.js.  The session user is passed in
(the `isStudent` guard and the handler's own `!user` re-check guarantee it).
Check order is exactly the source's: resume, then job existence/active status,
then deadline, then the duplicate pre-check, then insert.  `newAid` stands for
the fresh document id minted by the store. -/
def applyJob (user : User) (jobId : Id) (now : Int) (newAid : Id) (σ : Store) :
    ApplyRes × Store :=
  if user.resume = "" then (.resumeRequired, σ)
  else
    match findJob σ jobId with
    | none => (.jobUnavailable, σ)
    | some job =>
      if job.status ≠ "active" then (.jobUnavailable, σ)
      else if job.deadline < now then (.deadlinePassed, σ)
      else
        match σ.apps.find? (fun a => a.studentId == user.uid && a.jobId == job.jid) with
        | some _ => (.duplicateApplication, σ)
        | none =>
          let app : Application :=
            { aid := newAid
              studentId := user.uid
              jobId := job.jid
              companyId := job.companyId
              status := "pending"
              appliedDate := now
              resume := user.resume }
          (.applied, { σ with apps := σ.apps ++ [app] })

/-- POST /student/profile/resume: stores the uploaded file path on the user
record (the file-move step is an external collaborator and is elided). -/
def updateResume (uid : Id) (newResume : String) (σ : Store) : Store :=
  { σ with
    users := σ.users.map (fun u => if u.uid == uid then { u with resume := newResume } else u) }

/-! ## Status update (POST /company/applications/:applicationId/status,
src/routes/companyRoutes.js) -/

/-- The request body of the status route: `status` plus optional interview
fields; `none` models an absent or JS-falsy field. -/
structure StatusBody where
  status : String
  interviewDate : Option Int := none
  interviewMode : Option String := none
  interviewLocation : Option String := none
  interviewLink : Option String := none
  deriving Repr, DecidableEq

/-- JS `String.prototype.toLowerCase` on the ASCII status strings of this
code base (executable, unlike `String.toLower`, whose `mapAux` does not
reduce in the kernel). -/
def lowerString (s : String) : String := ⟨s.data.map Char.toLower⟩

/-- The mutation the status handler performs on the found application
document: lower-cases the status, and copies each supplied interview field
only when the raw body status is exactly "shortlisted" or "Shortlisted". -/
def applyStatusBody (body : StatusBody) (app : Application) : Application :=
  let app' := { app with status := lowerString body.status }
  if body.status == "shortlisted" || body.status == "Shortlisted" then
    { app' with
      interviewDate :=
        match body.interviewDate with
        | some d => some d
        | none => app'.interviewDate
      interviewMode :=
        match body.interviewMode with
        | some m => some m
        | none => app'.interviewMode
      interviewLocation :=
        match body.interviewLocation with
        | some l => some l
        | none => app'.interviewLocation
      interviewLink :=
        match body.interviewLink with
        | some l => some l
        | none => app'.interviewLink }
  else app'

inductive UpdRes
  | notFound
  | serverError
  | updated
  deriving Repr, DecidableEq

/-- The live status route.  Ownership is derived through the populated job
(`application.jobId.companyId`); a missing application and a foreign owner
both return the same 404 "Application not found" response.  When the
populated job is gone the handler dereferences null and the catch block
answers 500 (`serverError`). -/
def updateStatusCompany (companyId : Id) (appId : Id) (body : StatusBody) (σ : Store) :
    UpdRes × Store :=
  match findApp σ appId with
  | none => (.notFound, σ)
  | some app =>
    match findJob σ app.jobId with
    | none => (.serverError, σ)
    | some job =>
      if job.companyId ≠ companyId then (.notFound, σ)
      else
        (.updated,
          { σ with
            apps := σ.apps.map (fun a => if a.aid == appId then applyStatusBody body a else a) })

inductive UpdRes2
  | notFound
  | notAuthorized
  | updated
  deriving Repr, DecidableEq

/-- Controller `updateApplicationStatus` of the controller module (src/unnamed/part_001):
checks the denormalized `application.companyId` and answers a distinct 403
"Not authorized" for a foreign owner and 404 for a missing application. -/
def updateApplicationStatus (companyId : Id) (appId : Id) (status : String) (σ : Store) :
    UpdRes2 × Store :=
  match findApp σ appId with
  | none => (.notFound, σ)
  | some app =>
    if app.companyId ≠ companyId then (.notAuthorized, σ)
    else
      (.updated,
        { σ with
          apps := σ.apps.map (fun a => if a.aid == appId then { a with status := status } else a) })

/-! ## Job deletion -/

inductive DelRes
  | notFound
  | deleted
  deriving Repr, DecidableEq

/-- DELETE /company/jobs/:jobId (src/routes/companyRoutes.js): the job must be
owned by the session company; then all applications for the job are deleted,
then the job itself. -/
def deleteJobCompany (companyId : Id) (jobId : Id) (σ : Store) : DelRes × Store :=
  match σ.jobs.find? (fun j => j.jid == jobId && j.companyId == companyId) with
  | none => (.notFound, σ)
  | some _ =>
    (.deleted,
      { σ with
        apps := σ.apps.filter (fun a => a.jobId != jobId)
        jobs := σ.jobs.filter (fun j => j.jid != jobId) })

/-- Admin DELETE /jobs/:id (src/routes/index.js): no ownership check; deletes
applications for the job, then the job. -/
def deleteJobAdmin (jobId : Id) (σ : Store) : Store :=
  { σ with
    apps := σ.apps.filter (fun a => a.jobId != jobId)
    jobs := σ.jobs.filter (fun j => j.jid != jobId) }

/-! ## Admin user deletion (DELETE /admin/users/:id, src/routes/index.js) -/

inductive DelUserRes
  | cannotDeleteSelf
  | deleted
  deriving Repr, DecidableEq

/-- The admin delete-user handler.  Self-deletion is rejected first with a 400
response.  The cascade is keyed on the `?role=` query parameter: `student`
deletes the target's applications, `company` deletes applications of the
target's jobs and then those jobs; any other value skips the cascade.
Finally the user document itself is deleted. -/
def deleteUserAdmin (sessionAdminId : Id) (targetId : Id) (roleParam : String) (σ : Store) :
    DelUserRes × Store :=
  if targetId = sessionAdminId then (.cannotDeleteSelf, σ)
  else
    let σ1 :=
      if roleParam = "student" then
        { σ with apps := σ.apps.filter (fun a => a.studentId != targetId) }
      else if roleParam = "company" then
        let jobIds := (σ.jobs.filter (fun j => j.companyId == targetId)).map (fun j => j.jid)
        { σ with
          apps := σ.apps.filter (fun a => !(jobIds.contains a.jobId))
          jobs := σ.jobs.filter (fun j => j.companyId != targetId) }
      else σ
    (.deleted, { σ1 with users := σ1.users.filter (fun u => u.uid != targetId) })

/-! ## Login (loginUser, src/controllers/authController.js) -/

inductive LoginRes
  | invalidAdminKey
  | invalidCredentials
  | success (uid : Id)
  deriving Repr, DecidableEq

/-- The admin-key guard of `loginUser`: `!adminKey || adminKey !== correctAdminKey`
(a missing or empty key is modelled as `none`). -/
def adminKeyOk (adminKey : Option String) (configKey : String) : Bool :=
  match adminKey with
  | none => false
  | some k => k == configKey

/-- Handler `loginUser`.  For role `admin` the shared admin key is validated before
the user lookup.  Then the user is looked up by (email, role) and the
credential compared; `comparePassword` (bcrypt) is abstracted as equality of
the stored credential with the supplied one. -/
def loginUser (email password role : String) (adminKey : Option String)
    (configKey : String) (σ : Store) : LoginRes :=
  if role == "admin" && !(adminKeyOk adminKey configKey) then .invalidAdminKey
  else
    match σ.users.find? (fun u => u.email == email && u.role == role) with
    | none => .invalidCredentials
    | some u => if u.password = password then .success u.uid else .invalidCredentials

/-! ## Authorization gate (src/middleware/roleMiddleware.js and the
isAuthenticated/requireRole guards of src/unnamed/part_001) -/

inductive GateOutcome
  | allow
  | deny403
  | redirectLogin
  deriving Repr, DecidableEq

/-- Guard `isAdmin`: allow iff `req.session?.user?.role === 'admin'`, otherwise a
403 error page — also when there is no session user at all. -/
def isAdmin (s : Option User) : GateOutcome :=
  match s with
  | some u => if u.role = "admin" then .allow else .deny403
  | none => .deny403

/-- Guard `isCompany`. -/
def isCompany (s : Option User) : GateOutcome :=
  match s with
  | some u => if u.role = "company" then .allow else .deny403
  | none => .deny403

/-- Guard `isStudent`. -/
def isStudent (s : Option User) : GateOutcome :=
  match s with
  | some u => if u.role = "student" then .allow else .deny403
  | none => .deny403

/-- Guard `checkRole(roles)`: redirects to login when no session user, 403 when the
role is not in the allowed set. -/
def checkRole (roles : List String) (s : Option User) : GateOutcome :=
  match s with
  | none => .redirectLogin
  | some u => if roles.contains u.role then .allow else .deny403

/-- Guard `isAuthenticated` (src/unnamed/part_001). -/
def isAuthenticated (s : Option User) : GateOutcome :=
  match s with
  | some _ => .allow
  | none => .redirectLogin

/-- Guard `requireRole(role)` (src/unnamed/part_001): 403 both for a missing session
user and a role mismatch. -/
def requireRole (role : String) (s : Option User) : GateOutcome :=
  match s with
  | some u => if u.role = role then .allow else .deny403
  | none => .deny403

/-- Composition `router.use(guard)` followed by a handler: the guarded handler's store
operations run only when the guard calls `next()`. -/
def runGated (gate : Option User → GateOutcome) (handler : Store → Store)
    (s : Option User) (σ : Store) : GateOutcome × Store :=
  match gate s with
  | .allow => (.allow, handler σ)
  | o => (o, σ)

/-! # Theorems for the specification claims -/

/-- C9: a delete-user request whose target id equals the session admin's own
id fails with the 400 "cannot delete your own account" error before any
cascade runs, and no User, Job, or Application record is removed (the store
is returned unchanged). -/
theorem admin_cannot_delete_self (adminId : Id) (roleParam : String) (σ : Store) :
    deleteUserAdmin adminId adminId roleParam σ = (.cannotDeleteSelf, σ) := by
  simp [deleteUserAdmin]

/-- C6: an admin login whose admin key does not match the configured shared
secret fails with InvalidAdminKey for every store — in particular also when
the store holds an admin user with exactly the supplied email and credential —
so the failure is decided before (independently of) any user lookup. -/
theorem admin_login_wrong_key (email password : String) (adminKey : Option String)
    (configKey : String) (hkey : adminKeyOk adminKey configKey = false) :
    ∀ σ : Store, loginUser email password "admin" adminKey configKey σ = .invalidAdminKey := by
  intro σ
  simp [loginUser, hkey]

/-- Witness for C6: the stored admin's email and credential match the request,
yet the mismatched key alone decides the outcome. -/
theorem admin_login_wrong_key_witness :
    adminKeyOk (some "wrong-key") "secret" = false ∧
    loginUser "root@portal" "pw123" "admin" (some "wrong-key") "secret"
      { users := [{ uid := 1, name := "root", email := "root@portal", password := "pw123",
                    role := "admin", resume := "" }],
        jobs := [], apps := [] } = .invalidAdminKey :=
  ⟨by decide,
   admin_login_wrong_key "root@portal" "pw123" (some "wrong-key") "secret" (by decide) _⟩

/-- C2 counterexample: a job with status "closed" whose deadline (10) lies
before now (100).  The claim predicts DeadlinePassed regardless of status,
but the handler checks `job.status !== 'active'` first and answers
JobUnavailable (404 "Job not found or no longer active"). -/
theorem apply_closed_past_deadline_counterexample :
    (applyJob
      { uid := 1, name := "stu", email := "s@x", password := "p", role := "student",
        resume := "/uploads/resumes/1.pdf" }
      5 100 7
      { users := [], apps := [],
        jobs := [{ jid := 5, companyId := 2, companyName := "Acme", title := "Dev",
                   deadline := 10, status := "closed" }] }).1
      = ApplyRes.jobUnavailable ∧
    ApplyRes.jobUnavailable ≠ ApplyRes.deadlinePassed := by
  decide

/-- C2 amended: Apply fails with DeadlinePassed when the job exists with
status "active" and its deadline lies before now (and the student has a
resume on file, which the handler checks even earlier); for a closed job the
status check fires first and the failure is JobUnavailable instead. -/
theorem apply_deadline_passed_active (u : User) (j : Id) (now : Int) (aid : Id)
    (σ : Store) (job : Job)
    (hres : u.resume ≠ "")
    (hfind : findJob σ j = some job)
    (hact : job.status = "active")
    (hdl : job.deadline < now) :
    applyJob u j now aid σ = (.deadlinePassed, σ) := by
  simp [applyJob, hres, hfind, hact, hdl]

/-- Witness for the amended C2. -/
theorem apply_deadline_passed_active_witness :
    applyJob
      { uid := 1, name := "stu", email := "s@x", password := "p", role := "student",
        resume := "/uploads/resumes/1.pdf" }
      5 100 7
      { users := [], apps := [],
        jobs := [{ jid := 5, companyId := 2, companyName := "Acme", title := "Dev",
                   deadline := 10, status := "active" }] }
      = (ApplyRes.deadlinePassed,
         { users := [], apps := [],
           jobs := [{ jid := 5, companyId := 2, companyName := "Acme", title := "Dev",
                      deadline := 10, status := "active" }] }) :=
  apply_deadline_passed_active _ 5 100 7 _
    { jid := 5, companyId := 2, companyName := "Acme", title := "Dev",
      deadline := 10, status := "active" }
    (by decide) (by decide) (by decide) (by decide)

/-- C8 counterexample: the guards protecting the role-scoped route groups
(`isAdmin`/`isCompany`/`isStudent`) answer the 403 deny also when there is no
session user at all — not a redirect to login and not a 401. -/
theorem gate_no_session_counterexample :
    isStudent none = GateOutcome.deny403 ∧
    isCompany none = GateOutcome.deny403 ∧
    isAdmin none = GateOutcome.deny403 ∧
    GateOutcome.deny403 ≠ GateOutcome.redirectLogin := by
  decide

/-- C8 amended: every gate yields exactly one of allow / 403-deny /
redirect-to-login.  The per-role guards (`isAdmin`, `isCompany`, `isStudent`,
`requireRole`) deny with 403 both on a missing session user and on a role
mismatch; only `checkRole` and `isAuthenticated` redirect to login on a
missing session user; a present user is allowed iff the role is in the
route's allowed set; and the guarded handler's store operations run only when
the gate allows. -/
theorem gate_decision_rule (u : User) (roles : List String) (role : String)
    (gate : Option User → GateOutcome) (handler : Store → Store)
    (s : Option User) (σ : Store) :
    (isAdmin none = .deny403 ∧ isCompany none = .deny403 ∧ isStudent none = .deny403 ∧
      requireRole role none = .deny403) ∧
    (checkRole roles none = .redirectLogin ∧ isAuthenticated none = .redirectLogin) ∧
    (isAdmin (some u) = if u.role = "admin" then .allow else .deny403) ∧
    (isCompany (some u) = if u.role = "company" then .allow else .deny403) ∧
    (isStudent (some u) = if u.role = "student" then .allow else .deny403) ∧
    (requireRole role (some u) = if u.role = role then .allow else .deny403) ∧
    (checkRole roles (some u) = if roles.contains u.role then .allow else .deny403) ∧
    (gate s ≠ .allow → runGated gate handler s σ = (gate s, σ)) ∧
    (gate s = .allow → runGated gate handler s σ = (.allow, handler σ)) := by
  refine ⟨⟨rfl, rfl, rfl, rfl⟩, ⟨rfl, rfl⟩, rfl, rfl, rfl, rfl, rfl, ?_, ?_⟩
  · intro h
    unfold runGated
    cases hg : gate s <;> simp_all
  · intro h
    unfold runGated
    rw [h]

/-- Witness for the amended C8: a no-session request to a student-gated route
is denied with 403 and the guarded handler never runs (the store, here
holding one application, is untouched). -/
theorem gate_decision_rule_witness :
    runGated isStudent (fun σ => { σ with apps := [] }) none
      { users := [], jobs := [],
        apps := [{ aid := 1, studentId := 1, jobId := 1, companyId := 1,
                   status := "pending", appliedDate := 0, resume := "r" }] }
      = (GateOutcome.deny403,
         { users := [], jobs := [],
           apps := [{ aid := 1, studentId := 1, jobId := 1, companyId := 1,
                      status := "pending", appliedDate := 0, resume := "r" }] }) :=
  (gate_decision_rule
      { uid := 0, name := "", email := "", password := "", role := "", resume := "" }
      [] "" isStudent (fun σ => { σ with apps := [] }) none
      { users := [], jobs := [],
        apps := [{ aid := 1, studentId := 1, jobId := 1, companyId := 1,
                   status := "pending", appliedDate := 0, resume := "r" }] }).2.2.2.2.2.2.2.1
    (by decide)

/-- Sample data for C3: application 10 belongs to job 5, owned by company 1. -/
def app3c : Application :=
  { aid := 10, studentId := 3, jobId := 5, companyId := 1, status := "pending",
    appliedDate := 0, resume := "r" }

def job3c : Job :=
  { jid := 5, companyId := 1, companyName := "Acme", title := "Dev",
    deadline := 100, status := "active" }

def σ3c : Store := { users := [], jobs := [job3c], apps := [app3c] }

/-- C3 counterexample: on the live status route, company 2 (not the owner,
company 1) updating application 10 receives the very same NotFound outcome as
an update of the nonexistent application 999 — not a distinct NotAuthorized. -/
theorem updateStatus_not_authorized_counterexample :
    (updateStatusCompany 2 10 { status := "hired" } σ3c).1 = UpdRes.notFound ∧
    (updateStatusCompany 2 999 { status := "hired" } σ3c).1 = UpdRes.notFound := by
  decide

/-- C3 amended: on the live route (POST /company/applications/:id/status) a
foreign actor and a missing application both fail with the same 404 NotFound
response, and the store is unchanged in both cases; the alternative controller
`updateApplicationStatus` does distinguish them, answering a 403 NotAuthorized
for a foreign actor and a 404 NotFound for a missing application, again
leaving the store unchanged; those two outcomes are distinct. -/
theorem updateStatus_failure_modes (cid appId : Id) (body : StatusBody) (st : String)
    (σ : Store) (app : Application) (job : Job) :
    (findApp σ appId = none → updateStatusCompany cid appId body σ = (.notFound, σ)) ∧
    (findApp σ appId = some app → findJob σ app.jobId = some job → job.companyId ≠ cid →
      updateStatusCompany cid appId body σ = (.notFound, σ)) ∧
    (findApp σ appId = none → updateApplicationStatus cid appId st σ = (.notFound, σ)) ∧
    (findApp σ appId = some app → app.companyId ≠ cid →
      updateApplicationStatus cid appId st σ = (.notAuthorized, σ)) ∧
    UpdRes2.notAuthorized ≠ UpdRes2.notFound := by
  refine ⟨?_, ?_, ?_, ?_, by decide⟩
  · intro h
    simp [updateStatusCompany, h]
  · intro h1 h2 h3
    simp [updateStatusCompany, h1, h2, h3]
  · intro h
    simp [updateApplicationStatus, h]
  · intro h1 h2
    simp [updateApplicationStatus, h1, h2]

/-- Witness for the amended C3. -/
theorem updateStatus_failure_modes_witness :
    updateStatusCompany 2 10 { status := "hired" } σ3c = (UpdRes.notFound, σ3c) ∧
    updateApplicationStatus 2 10 "hired" σ3c = (UpdRes2.notAuthorized, σ3c) :=
  ⟨(updateStatus_failure_modes 2 10 { status := "hired" } "hired" σ3c app3c job3c).2.1
      (by decide) (by decide) (by decide),
   (updateStatus_failure_modes 2 10 { status := "hired" } "hired" σ3c app3c job3c).2.2.2.1
      (by decide) (by decide)⟩

/-- C5: when the admin deletes company user U (target ≠ admin's own id, role
query parameter "company", the value the admin users page sends for a company
account), the resulting store holds no job of U, no application referencing
any of U's jobs, and no user with U's id; equivalently the corresponding
filters of the resulting store are empty. -/
theorem delete_company_user_cascade (adminId target : Id) (σ σ' : Store)
    (hne : target ≠ adminId)
    (h : deleteUserAdmin adminId target "company" σ = (.deleted, σ')) :
    (∀ jb ∈ σ'.jobs, jb.companyId ≠ target) ∧
    (∀ a ∈ σ'.apps, ∀ jb ∈ σ.jobs, jb.companyId = target → a.jobId ≠ jb.jid) ∧
    (∀ w ∈ σ'.users, w.uid ≠ target) ∧
    σ'.jobs.filter (fun j => j.companyId == target) = [] ∧
    σ'.users.filter (fun w => w.uid == target) = [] := by
  unfold deleteUserAdmin at h
  rw [if_neg hne] at h
  rw [if_neg (show ¬("company" = "student") by decide)] at h
  rw [if_pos (show ("company" = "company") from rfl)] at h
  have hσ : σ' =
      { users := (σ.users.filter (fun w => w.uid != target))
        jobs := σ.jobs.filter (fun j => j.companyId != target)
        apps := σ.apps.filter (fun a =>
          !(((σ.jobs.filter (fun j => j.companyId == target)).map (fun j => j.jid)).contains
            a.jobId)) } := by
    have := congrArg Prod.snd h
    simp only at this
    exact this.symm
  subst hσ
  refine ⟨?_, ?_, ?_, ?_, ?_⟩
  · intro jb hjb
    have := (List.mem_filter.mp hjb).2
    simpa using this
  · intro a ha jb hjb hcid heq
    have hc := (List.mem_filter.mp ha).2
    have hmem : jb.jid ∈
        ((σ.jobs.filter (fun j => j.companyId == target)).map (fun j => j.jid)) :=
      List.mem_map.mpr ⟨jb, List.mem_filter.mpr ⟨hjb, by simp [hcid]⟩, rfl⟩
    rw [heq] at hc
    rw [List.contains_iff_exists_mem_beq.mpr ⟨jb.jid, hmem, by simp⟩] at hc
    simp at hc
  · intro w hw
    have := (List.mem_filter.mp hw).2
    simpa using this
  · rw [List.filter_eq_nil_iff]
    intro jb hjb
    have := (List.mem_filter.mp hjb).2
    simpa using this
  · rw [List.filter_eq_nil_iff]
    intro w hw
    have := (List.mem_filter.mp hw).2
    simpa using this

/-- Sample data for C5: company 1 owns job 5 with application 10; company 2
owns job 6 with application 11; the admin is user 99. -/
def σ5c : Store :=
  { users :=
      [{ uid := 1, name := "c1", email := "c1@x", password := "p", role := "company", resume := "" },
       { uid := 99, name := "adm", email := "a@x", password := "p", role := "admin", resume := "" }],
    jobs :=
      [{ jid := 5, companyId := 1, companyName := "C1", title := "J5", deadline := 10, status := "active" },
       { jid := 6, companyId := 2, companyName := "C2", title := "J6", deadline := 10, status := "active" }],
    apps :=
      [{ aid := 10, studentId := 3, jobId := 5, companyId := 1, status := "pending",
         appliedDate := 0, resume := "r" },
       { aid := 11, studentId := 3, jobId := 6, companyId := 2, status := "pending",
         appliedDate := 0, resume := "r" }] }

/-- Witness for C5: deleting company user 1 leaves no job and no user of
company 1 behind. -/
theorem delete_company_user_cascade_witness :
    ((deleteUserAdmin 99 1 "company" σ5c).2).jobs.filter (fun j => j.companyId == 1) = [] ∧
    ((deleteUserAdmin 99 1 "company" σ5c).2).users.filter (fun w => w.uid == 1) = [] :=
  ⟨(delete_company_user_cascade 99 1 σ5c _ (by decide) rfl).2.2.2.1,
   (delete_company_user_cascade 99 1 σ5c _ (by decide) rfl).2.2.2.2⟩

/-- Shared backbone for the two delete-job cascades: after filtering out the
applications of job `jid`, no application references `jid` any more, and (with
distinct application ids) looking up the id of any removed application finds
nothing. -/
theorem cascade_apps_facts (σ : Store) (jid : Id) (hnodup : appIdsNodup σ) :
    (∀ a ∈ σ.apps.filter (fun a => a.jobId != jid), a.jobId ≠ jid) ∧
    (∀ a ∈ σ.apps, a.jobId = jid →
      (σ.apps.filter (fun a => a.jobId != jid)).find? (fun b => b.aid == a.aid) = none) ∧
    (σ.apps.filter (fun a => a.jobId != jid)).filter (fun a => a.jobId == jid) = [] := by
  refine ⟨?_, ?_, ?_⟩
  · intro a ha
    have := (List.mem_filter.mp ha).2
    simpa using this
  · intro a ha haj
    rw [List.find?_eq_none]
    intro b hb hbeq
    obtain ⟨hbmem, hbne⟩ := List.mem_filter.mp hb
    have hbaid : b.aid = a.aid := by simpa using hbeq
    have hba : b = a := List.inj_on_of_nodup_map hnodup hbmem ha hbaid
    rw [hba] at hbne
    simp [haj] at hbne
  · rw [List.filter_eq_nil_iff]
    intro a ha hq
    obtain ⟨_, hne⟩ := List.mem_filter.mp ha
    simp_all

/-- C4: a successful company-owned job delete removes every application of
the job — none remains, and the id of any application that referenced the job
looks up to NotFound — and the admin job delete does the same. -/
theorem delete_job_cascade (cid jid : Id) (σ σ' : Store)
    (hnodup : appIdsNodup σ)
    (h : deleteJobCompany cid jid σ = (.deleted, σ')) :
    (∀ a ∈ σ'.apps, a.jobId ≠ jid) ∧
    (∀ a ∈ σ.apps, a.jobId = jid → findApp σ' a.aid = none) ∧
    σ'.apps.filter (fun a => a.jobId == jid) = [] ∧
    (∀ a ∈ (deleteJobAdmin jid σ).apps, a.jobId ≠ jid) ∧
    (∀ a ∈ σ.apps, a.jobId = jid → findApp (deleteJobAdmin jid σ) a.aid = none) ∧
    (deleteJobAdmin jid σ).apps.filter (fun a => a.jobId == jid) = [] := by
  obtain ⟨f1, f2, f3⟩ := cascade_apps_facts σ jid hnodup
  unfold deleteJobCompany at h
  split at h
  · simp at h
  · have hσ : σ' =
        { σ with
          apps := σ.apps.filter (fun a => a.jobId != jid)
          jobs := σ.jobs.filter (fun j => j.jid != jid) } := by
      have := congrArg Prod.snd h
      simp only at this
      exact this.symm
    subst hσ
    exact ⟨f1, f2, f3, f1, f2, f3⟩

/-- Sample data for C4: job 5 of company 1 with two applications. -/
def σ4c : Store :=
  { users := [],
    jobs := [{ jid := 5, companyId := 1, companyName := "C1", title := "J5",
               deadline := 10, status := "active" }],
    apps :=
      [{ aid := 10, studentId := 3, jobId := 5, companyId := 1, status := "pending",
         appliedDate := 0, resume := "r" },
       { aid := 11, studentId := 4, jobId := 5, companyId := 1, status := "shortlisted",
         appliedDate := 0, resume := "r" }] }

/-- Witness for C4: after either delete of job 5, its applications 10 and 11
are gone. -/
theorem delete_job_cascade_witness :
    findApp (deleteJobCompany 1 5 σ4c).2 10 = none ∧
    findApp (deleteJobAdmin 5 σ4c) 11 = none ∧
    ((deleteJobCompany 1 5 σ4c).2).apps.filter (fun a => a.jobId == 5) = [] :=
  ⟨(delete_job_cascade 1 5 σ4c _ (by unfold appIdsNodup; decide) rfl).2.1
      { aid := 10, studentId := 3, jobId := 5, companyId := 1, status := "pending",
        appliedDate := 0, resume := "r" } (by decide) rfl,
   (delete_job_cascade 1 5 σ4c _ (by unfold appIdsNodup; decide) rfl).2.2.2.2.1
      { aid := 11, studentId := 4, jobId := 5, companyId := 1, status := "shortlisted",
        appliedDate := 0, resume := "r" } (by decide) rfl,
   (delete_job_cascade 1 5 σ4c _ (by unfold appIdsNodup; decide) rfl).2.2.1⟩

/-- C7: when the student has a resume on file, the job exists with status
"active" and a deadline not in the past, and no application for the pair
exists, Apply creates exactly one new application with status "pending" whose
resume field is the student's resume reference at that instant; the stored
copy is a snapshot — a later resume update on the profile leaves the
application store untouched. -/
theorem apply_success_snapshot (u : User) (j : Id) (now : Int) (aid : Id)
    (σ : Store) (job : Job)
    (hres : u.resume ≠ "")
    (hfind : findJob σ j = some job)
    (hact : job.status = "active")
    (hdl : ¬ job.deadline < now)
    (hdup : σ.apps.find? (fun a => a.studentId == u.uid && a.jobId == job.jid) = none) :
    applyJob u j now aid σ =
      (.applied,
        { σ with apps := σ.apps ++
            [{ aid := aid, studentId := u.uid, jobId := job.jid, companyId := job.companyId,
               status := "pending", appliedDate := now, resume := u.resume }] }) ∧
    (∀ newResume,
      (updateResume u.uid newResume (applyJob u j now aid σ).2).apps
        = (applyJob u j now aid σ).2.apps) := by
  constructor
  · simp [applyJob, hres, hfind, hact, hdl, hdup]
  · intro newResume
    rfl

def u7c : User :=
  { uid := 1, name := "stu", email := "s@x", password := "p", role := "student",
    resume := "/uploads/resumes/1.pdf" }

def job7c : Job :=
  { jid := 5, companyId := 2, companyName := "Acme", title := "Dev",
    deadline := 100, status := "active" }

def σ7c : Store := { users := [u7c], jobs := [job7c], apps := [] }

/-- Witness for C7: student 1 applies to active job 5 (deadline 100, now 50);
a pending application with the snapshot resume is created, and a subsequent
resume change does not touch it. -/
theorem apply_success_snapshot_witness :
    applyJob u7c 5 50 7 σ7c =
      (ApplyRes.applied,
        { σ7c with apps :=
            [{ aid := 7, studentId := 1, jobId := 5, companyId := 2,
               status := "pending", appliedDate := 50, resume := "/uploads/resumes/1.pdf" }] }) ∧
    (updateResume 1 "/uploads/resumes/1-later.pdf" (applyJob u7c 5 50 7 σ7c).2).apps
      = (applyJob u7c 5 50 7 σ7c).2.apps :=
  ⟨(apply_success_snapshot u7c 5 50 7 σ7c job7c
      (by decide) (by decide) (by decide) (by decide) (by decide)).1,
   (apply_success_snapshot u7c 5 50 7 σ7c job7c
      (by decide) (by decide) (by decide) (by decide) (by decide)).2
     "/uploads/resumes/1-later.pdf"⟩

/-- Inversion of a successful Apply: all four preconditions held and the new
store is the old one with exactly the one new pending application appended. -/
theorem applyJob_ok_inv (u : User) (j : Id) (now : Int) (aid : Id) (σ σ' : Store)
    (h : applyJob u j now aid σ = (.applied, σ')) :
    u.resume ≠ "" ∧
    ∃ job, findJob σ j = some job ∧ job.status = "active" ∧ ¬ job.deadline < now ∧
      σ.apps.find? (fun a => a.studentId == u.uid && a.jobId == job.jid) = none ∧
      σ' = { σ with apps := σ.apps ++
        [{ aid := aid, studentId := u.uid, jobId := job.jid, companyId := job.companyId,
           status := "pending", appliedDate := now, resume := u.resume }] } := by
  unfold applyJob at h
  split at h
  next hres => simp at h
  next hres =>
    split at h
    next => simp at h
    next job hfind =>
      split at h
      next hst => simp at h
      next hst =>
        split at h
        next hdl => simp at h
        next hdl =>
          split at h
          next x hdup => simp at h
          next hdup =>
            refine ⟨hres, job, hfind, not_not.mp hst, hdl, hdup, ?_⟩
            have := congrArg Prod.snd h
            simp only at this
            exact this.symm

/-- C1: Apply preserves the at-most-one-application-per-(student, job)
invariant, and right after a successful Apply a second Apply by the same
student for the same job fails with DuplicateApplication and leaves the store
— hence the set of Application records — unchanged. -/
theorem apply_unique_and_duplicate_rejected (u : User) (j : Id) (now : Int)
    (aid1 aid2 : Id) (σ σ' : Store)
    (hinv : atMostOnePerPair σ)
    (h : applyJob u j now aid1 σ = (.applied, σ')) :
    atMostOnePerPair σ' ∧
    applyJob u j now aid2 σ' = (.duplicateApplication, σ') := by
  obtain ⟨hres, job, hfind, hact, hdl, hdup, hσ⟩ := applyJob_ok_inv u j now aid1 σ σ' h
  subst hσ
  constructor
  · unfold atMostOnePerPair at hinv ⊢
    simp only [List.pairwise_append]
    refine ⟨hinv, by simp, ?_⟩
    intro a ha b hb
    simp only [List.mem_singleton] at hb
    subst hb
    rw [List.find?_eq_none] at hdup
    have hnot := hdup a ha
    simp only [Bool.and_eq_true, beq_iff_eq, not_and] at hnot
    intro hc
    exact hnot (by simpa using hc.1) (by simpa using hc.2)
  · have hfind' : findJob { σ with apps := σ.apps ++
        [{ aid := aid1, studentId := u.uid, jobId := job.jid, companyId := job.companyId,
           status := "pending", appliedDate := now, resume := u.resume }] } j
        = some job := hfind
    simp [applyJob, hres, hfind', hact, hdl, List.find?_append, hdup]

def u1c : User :=
  { uid := 1, name := "stu", email := "s@x", password := "p", role := "student",
    resume := "/uploads/resumes/1.pdf" }

def σ1c : Store :=
  { users := [u1c],
    jobs := [{ jid := 5, companyId := 2, companyName := "Acme", title := "Dev",
               deadline := 100, status := "active" }],
    apps := [] }

/-- Witness for C1: after student 1 successfully applies to job 5, the
invariant holds and an immediate second apply is rejected as a duplicate
without changing the store. -/
theorem apply_unique_and_duplicate_rejected_witness :
    atMostOnePerPair (applyJob u1c 5 50 7 σ1c).2 ∧
    applyJob u1c 5 50 8 (applyJob u1c 5 50 7 σ1c).2
      = (ApplyRes.duplicateApplication, (applyJob u1c 5 50 7 σ1c).2) :=
  apply_unique_and_duplicate_rejected u1c 5 50 7 8 σ1c _
    (List.Pairwise.nil) (by decide)

/-- Replacing (by id) a found application in a list keeps it findable, now in
its mutated form, provided the mutation preserves the id. -/
theorem find?_map_replace (l : List Application) (i : Id) (f : Application → Application)
    (hf : ∀ a, (f a).aid = a.aid) :
    ∀ {app : Application}, l.find? (fun a => a.aid == i) = some app →
      (l.map (fun a => if a.aid == i then f a else a)).find? (fun a => a.aid == i)
        = some (f app) := by
  induction l with
  | nil => intro app h; simp at h
  | cons x xs ih =>
    intro app h
    cases hx : (x.aid == i) with
    | true =>
      simp only [List.find?_cons, hx] at h
      obtain rfl : x = app := by simpa using h
      simp only [List.map_cons]
      rw [if_pos hx]
      simp only [List.find?_cons, hf, hx]
    | false =>
      simp only [List.find?_cons, hx] at h
      simp only [List.map_cons, List.find?_cons, hx, Bool.false_eq_true, if_false]
      exact ih h

/-- The status-route mutation never changes the application id. -/
theorem applyStatusBody_aid (body : StatusBody) (a : Application) :
    (applyStatusBody body a).aid = a.aid := by
  simp only [applyStatusBody]
  split <;> rfl

/-- C10: an owning company's status update stores the lower-cased status and
touches the interview fields only in the shortlisted case: when the stored
new status is not "shortlisted" all four interview fields are unchanged; a
field absent from the request is unchanged in every case; and when the status
is "shortlisted" a supplied interview date is stored. -/
theorem updateStatus_interview_frame (cid appId : Id) (body : StatusBody) (d : Int)
    (σ : Store) (app : Application) (job : Job)
    (hfa : findApp σ appId = some app)
    (hfj : findJob σ app.jobId = some job)
    (hown : job.companyId = cid) :
    (updateStatusCompany cid appId body σ).1 = .updated ∧
    findApp (updateStatusCompany cid appId body σ).2 appId = some (applyStatusBody body app) ∧
    (applyStatusBody body app).status = lowerString body.status ∧
    (lowerString body.status ≠ "shortlisted" →
      (applyStatusBody body app).interviewDate = app.interviewDate ∧
      (applyStatusBody body app).interviewMode = app.interviewMode ∧
      (applyStatusBody body app).interviewLocation = app.interviewLocation ∧
      (applyStatusBody body app).interviewLink = app.interviewLink) ∧
    (body.interviewDate = none →
      (applyStatusBody body app).interviewDate = app.interviewDate) ∧
    (body.interviewMode = none →
      (applyStatusBody body app).interviewMode = app.interviewMode) ∧
    (body.interviewLocation = none →
      (applyStatusBody body app).interviewLocation = app.interviewLocation) ∧
    (body.interviewLink = none →
      (applyStatusBody body app).interviewLink = app.interviewLink) ∧
    (body.status = "shortlisted" → body.interviewDate = some d →
      (applyStatusBody body app).interviewDate = some d) := by
  have hupd : updateStatusCompany cid appId body σ =
      (.updated,
        { σ with
          apps := σ.apps.map (fun a => if a.aid == appId then applyStatusBody body a else a) }) := by
    simp [updateStatusCompany, hfa, hfj, hown]
  have hfa' : σ.apps.find? (fun a => a.aid == appId) = some app := hfa
  refine ⟨by rw [hupd], ?_, ?_, ?_, ?_, ?_, ?_, ?_, ?_⟩
  · rw [hupd]
    exact find?_map_replace σ.apps appId (applyStatusBody body)
      (fun a => applyStatusBody_aid body a) hfa'
  · simp only [applyStatusBody]
    split <;> rfl
  · intro h
    have hcond : (body.status == "shortlisted" || body.status == "Shortlisted") = false := by
      by_cases h1 : body.status = "shortlisted"
      · exact absurd (by rw [h1]; decide) h
      · by_cases h2 : body.status = "Shortlisted"
        · exact absurd (by rw [h2]; decide) h
        · simp [h1, h2]
    simp [applyStatusBody, hcond]
  · intro h
    simp only [applyStatusBody]
    split
    · simp [h]
    · rfl
  · intro h
    simp only [applyStatusBody]
    split
    · simp [h]
    · rfl
  · intro h
    simp only [applyStatusBody]
    split
    · simp [h]
    · rfl
  · intro h
    simp only [applyStatusBody]
    split
    · simp [h]
    · rfl
  · intro hs hd
    simp [applyStatusBody, hs, hd]

def app10c : Application :=
  { aid := 10, studentId := 3, jobId := 5, companyId := 1, status := "pending",
    appliedDate := 0, resume := "r", interviewDate := some 42,
    interviewMode := some "Online", interviewLocation := none, interviewLink := none }

def job10c : Job :=
  { jid := 5, companyId := 1, companyName := "A", title := "T",
    deadline := 100, status := "active" }

def σ10c : Store := { users := [], jobs := [job10c], apps := [app10c] }

def body10c : StatusBody :=
  { status := "hired", interviewDate := some 99, interviewMode := some "Offline",
    interviewLocation := some "HQ", interviewLink := some "url" }

/-- Witness for C10: the owner sets status "hired" while supplying interview
fields; the update succeeds but the previously scheduled interview date and
mode stay untouched. -/
theorem updateStatus_interview_frame_witness :
    (updateStatusCompany 1 10 body10c σ10c).1 = UpdRes.updated ∧
    (applyStatusBody body10c app10c).interviewDate = app10c.interviewDate ∧
    (applyStatusBody body10c app10c).interviewMode = app10c.interviewMode :=
  ⟨(updateStatus_interview_frame 1 10 body10c 99 σ10c app10c job10c
      (by decide) (by decide) rfl).1,
   ((updateStatus_interview_frame 1 10 body10c 99 σ10c app10c job10c
      (by decide) (by decide) rfl).2.2.2.1 (by decide)).1,
   ((updateStatus_interview_frame 1 10 body10c 99 σ10c app10c job10c
      (by decide) (by decide) rfl).2.2.2.1 (by decide)).2.1⟩

end Placement
